import Mathlib

/- A shallow embedding of the OpenUniverse browser-extension tweet-collection
pipeline: the Extractor and Bridge (injected page script and content script)
and the Collector/Batcher (background service worker), together with proofs
of the specified properties. -/

namespace OpenUniverse

/-- JavaScript-style JSON values. Numbers are modelled as integers: every
numeric field the pipeline reads is an integer count, and identifier fields
are strings. -/
inductive Json where
  | null : Json
  | bool (b : Bool) : Json
  | num (n : Int) : Json
  | str (s : String) : Json
  | arr (elems : List Json) : Json
  | obj (fields : List (String × Json)) : Json
deriving Repr, BEq

/-- JavaScript truthiness of a defined value: null, false, 0 and the empty
string are falsy; arrays and objects are always truthy. -/
def truthy : Json → Bool
  | .null => false
  | .bool b => b
  | .num n => n != 0
  | .str s => s != ""
  | .arr _ => true
  | .obj _ => true

/-- Truthiness of a possibly-undefined value (`none` models `undefined`). -/
def truthyO : Option Json → Bool
  | some j => truthy j
  | none => false

/-- Property access `j.key`: the value when `j` is an object carrying the key,
otherwise `undefined` (property access on a non-object primitive yields
`undefined` in JavaScript, never a throw edge in the translated code). -/
def Json.get : Json → String → Option Json
  | .obj fields, key => (fields.find? (fun f => f.1 == key)).map (fun f => f.2)
  | _, _ => none

/-- Optional-chaining property access `o?.key` on a possibly-undefined base. -/
def getO (o : Option Json) (key : String) : Option Json :=
  match o with
  | some j => j.get key
  | none => none

/-- The JavaScript `a || b` operator: `a` when truthy, otherwise `b`. -/
def jsOr (a b : Option Json) : Option Json :=
  if truthyO a then a else b

/-- Numeric value of a run of decimal digit characters. -/
def digitsToNat (l : List Char) : Nat :=
  l.foldl (fun acc c => acc * 10 + (c.toNat - 48)) 0

/-- The JavaScript `parseInt` on a string consisting of an optional sign
followed by characters: it reads the longest leading run of decimal digits and
returns `NaN` (modelled as `none`) when that run is empty. Leading-whitespace
trimming is not modelled; the payload fields this is applied to are plain
digit strings. -/
def parseIntStr (s : String) : Option Int :=
  match s.data with
  | '-' :: rest =>
      let ds := rest.takeWhile (fun c => c.isDigit)
      if ds.isEmpty then none else some (-(digitsToNat ds : Int))
  | '+' :: rest =>
      let ds := rest.takeWhile (fun c => c.isDigit)
      if ds.isEmpty then none else some (digitsToNat ds : Int)
  | l =>
      let ds := l.takeWhile (fun c => c.isDigit)
      if ds.isEmpty then none else some (digitsToNat ds : Int)

/-- The JavaScript `parseInt` applied to a JSON value: integers pass through,
strings are parsed, and the remaining shapes (booleans, null, arrays, objects,
whose string coercions carry no leading digits in the modelled domain) give
`NaN`, modelled as `none`. -/
def jsParseInt : Json → Option Int
  | .num n => some n
  | .str s => parseIntStr s
  | _ => none

/-- The embedded author record built by the Extractor. Field values are the
JavaScript values the source assigns, with `none` for `undefined`; the source
field named `protected` is a reserved word here and is rendered
`is_protected`. -/
structure CapturedAuthor where
  id : Option Json
  username : Option Json
  name : Option Json
  description : Option Json
  location : Option Json
  url : Option Json
  profile_image_url : Option Json
  verified : Option Json
  verified_type : Json
  followers_count : Option Json
  following_count : Option Json
  tweet_count : Option Json
  like_count : Option Json
  listed_count : Option Json
  created_at : Option Json
  is_protected : Option Json
deriving Repr, BEq

/-- The normalized tweet record emitted by the Extractor. `impression_count`
is the result of `parseInt` (or the literal 0), hence a number with `none`
modelling `NaN`. -/
structure CapturedTweet where
  id : Option Json
  text : Option Json
  created_at : Option Json
  conversation_id : Option Json
  in_reply_to_status_id : Option Json
  in_reply_to_user_id : Option Json
  retweet_count : Option Json
  reply_count : Option Json
  like_count : Option Json
  quote_count : Option Json
  bookmark_count : Option Json
  impression_count : Option Int
  author : CapturedAuthor
  entities : Option Json
deriving Repr, BEq

/-- Translation of `parseTweetObject` from the injected page script: resolve
the legacy sub-object, the user result and the author handle, failing (null)
when any of the three is falsy, and otherwise build the record with
per-field fallback chains. -/
def parseTweetObject (tweetObj : Json) : Option CapturedTweet :=
  let legacy := tweetObj.get "legacy"
  if !truthyO legacy then none else
  let userResult := getO (getO (tweetObj.get "core") "user_results") "result"
  if !truthyO userResult then none else
  let userCore := jsOr (getO userResult "core") (some (Json.obj []))
  let userLegacy := jsOr (getO userResult "legacy") (some (Json.obj []))
  let userPrivacy := jsOr (getO userResult "privacy") (some (Json.obj []))
  let username := jsOr (getO userCore "screen_name") (getO userLegacy "screen_name")
  let name := jsOr (getO userCore "name") (getO userLegacy "name")
  if !truthyO username then none else
  some {
    id := jsOr (tweetObj.get "rest_id") (getO legacy "id_str")
    text := jsOr (getO legacy "full_text") (getO legacy "text")
    created_at := getO legacy "created_at"
    conversation_id := getO legacy "conversation_id_str"
    in_reply_to_status_id := getO legacy "in_reply_to_status_id_str"
    in_reply_to_user_id := getO legacy "in_reply_to_user_id_str"
    retweet_count := jsOr (getO legacy "retweet_count") (some (Json.num 0))
    reply_count := jsOr (getO legacy "reply_count") (some (Json.num 0))
    like_count := jsOr (getO legacy "favorite_count") (some (Json.num 0))
    quote_count := jsOr (getO legacy "quote_count") (some (Json.num 0))
    bookmark_count := jsOr (getO legacy "bookmark_count") (some (Json.num 0))
    impression_count :=
      match getO (tweetObj.get "views") "count" with
      | some v => if truthy v then jsParseInt v else some 0
      | none => some 0
    author := {
      id := jsOr (getO userResult "rest_id") (getO legacy "user_id_str")
      username := username
      name := name
      description := jsOr (jsOr (getO userLegacy "description")
        (getO (getO userResult "profile_bio") "description")) (some (Json.str ""))
      location := jsOr (jsOr (getO userLegacy "location")
        (getO (getO userResult "location") "location")) (some (Json.str ""))
      url := jsOr (getO userLegacy "url") (some (Json.str ""))
      profile_image_url := jsOr (jsOr (getO (getO userResult "avatar") "image_url")
        (getO userLegacy "profile_image_url_https")) (some (Json.str ""))
      verified := jsOr (jsOr (getO (getO userResult "verification") "verified")
        (getO userLegacy "verified")) (some (Json.bool false))
      verified_type :=
        if truthyO (getO userResult "is_blue_verified") then Json.str "blue" else Json.null
      followers_count := jsOr (jsOr (getO userLegacy "followers_count")
        (getO userLegacy "normal_followers_count")) (some (Json.num 0))
      following_count := jsOr (getO userLegacy "friends_count") (some (Json.num 0))
      tweet_count := jsOr (getO userLegacy "statuses_count") (some (Json.num 0))
      like_count := jsOr (getO userLegacy "favourites_count") (some (Json.num 0))
      listed_count := jsOr (getO userLegacy "listed_count") (some (Json.num 0))
      created_at := jsOr (jsOr (getO userCore "created_at")
        (getO userLegacy "created_at")) (some (Json.str ""))
      is_protected := jsOr (jsOr (getO userPrivacy "protected")
        (getO userLegacy "protected")) (some (Json.bool false))
    }
    entities := getO legacy "entities"
  }

/-- Whether a value has JavaScript `typeof` equal to `object` and is truthy:
arrays and plain objects pass, null and primitives do not. -/
def Json.isObjLike : Json → Bool
  | .arr _ => true
  | .obj _ => true
  | _ => false

/-- The structural test a node must pass to count as a tweet record: a
`__typename` field strictly equal to the string `Tweet` and a truthy
`rest_id` field. -/
def isTweetNode (j : Json) : Bool :=
  (match j.get "__typename" with
   | some (.str s) => s == "Tweet"
   | _ => false) && truthyO (j.get "rest_id")

/-- Translation of `findTweets` from the injected page script: a depth-first
walk, cut off below depth 20, that treats a qualifying node as a leaf (the
walk does not continue into it), parses it, and otherwise recurses into every
array element or object value. The source accumulates into a result array;
the returned list here is that array in push order. -/
def findTweets (obj : Json) (depth : Nat) : List CapturedTweet :=
  if depth > 20 || !obj.isObjLike then []
  else if isTweetNode obj then (parseTweetObject obj).toList
  else
    match obj with
    | .arr elems => elems.flatMap (fun item => findTweets item (depth + 1))
    | .obj fields => fields.flatMap (fun f => findTweets f.2 (depth + 1))
    | _ => []
termination_by 21 - depth
decreasing_by
  all_goals simp_all; omega

/-- The Extractor entry point: `extractAndSendTweets` starts the walk at the
payload root with depth 0. -/
def extractTweets (data : Json) : List CapturedTweet :=
  findTweets data 0

/-- Modelled from the spec wording of extraction completeness: the number of
structurally-valid tweet nodes at nesting depth at most 20 in a payload; this
count keeps descending below a tweet node, so nodes nested inside other tweet
nodes are included. -/
def countTweetNodes (j : Json) (depth : Nat) : Nat :=
  if depth > 20 || !j.isObjLike then 0
  else
    (if isTweetNode j then 1 else 0) +
    match j with
    | .arr elems => (elems.map (fun item => countTweetNodes item (depth + 1))).sum
    | .obj fields => (fields.map (fun f => countTweetNodes f.2 (depth + 1))).sum
    | _ => 0
termination_by 21 - depth
decreasing_by
  all_goals simp_all; omega

/-- The side condition under which the walk of `findTweets` reaches and emits
every counted tweet node: no qualifying node sits strictly inside another
qualifying node within the depth bound, and every qualifying node parses to a
record. -/
def wellPlaced (j : Json) (depth : Nat) : Bool :=
  if depth > 20 || !j.isObjLike then true
  else if isTweetNode j then
    (parseTweetObject j).isSome &&
    (match j with
     | .arr elems => elems.all (fun item => countTweetNodes item (depth + 1) == 0)
     | .obj fields => fields.all (fun f => countTweetNodes f.2 (depth + 1) == 0)
     | _ => true)
  else
    match j with
    | .arr elems => elems.all (fun item => wellPlaced item (depth + 1))
    | .obj fields => fields.all (fun f => wellPlaced f.2 (depth + 1))
    | _ => true
termination_by 21 - depth
decreasing_by
  all_goals simp_all; omega

/-- The event name the injected page script passes to `dispatchEvent` when
extraction finds tweets. -/
def dispatchedEventName : String := "__openccp_tweets__"

/-- The event name the content script passes to `addEventListener` for tweet
batches from the page. -/
def listenedEventName : String := "__openuniverse_tweets__"

/-- Translation of `extractAndSendTweets` from the injected page script: run
the Extractor over the response payload and, when the result is non-empty,
dispatch one window event carrying the full batch as its detail; an empty
result dispatches nothing. -/
def extractAndSendTweets (data : Json) : Option (String × List CapturedTweet) :=
  let tweets := extractTweets data
  if tweets.length > 0 then some (dispatchedEventName, tweets) else none

/-- Translation of the content-script bridge: a window event reaches the
registered listener exactly when it was dispatched under the name the
listener was registered for (standard DOM event dispatch), and the handler
forwards a non-empty detail to the background as one tweets-captured runtime
message. -/
def contentScriptReceive (eventName : String) (detail : List CapturedTweet) :
    Option (List CapturedTweet) :=
  if eventName == listenedEventName && detail.length > 0 then some detail else none

/-- The fixed batch size of the background collector. -/
def BATCH_SIZE : Nat := 50

/-- The fixed flush-timer period in milliseconds. -/
def BATCH_INTERVAL_MS : Nat := 5000

/-- The persisted statistics object of the background collector; `none` for
`lastSentAt` models the null timestamp. -/
structure Stats where
  tweetsCollected : Nat
  tweetsSent : Nat
  lastSentAt : Option Nat
deriving Repr, DecidableEq

/-- The state of the background service worker: the in-memory queue, the
enabled flag and the statistics. The queue element type is a parameter
because the collector never inspects tweet contents, only moves them. -/
structure CollectorState (α : Type) where
  tweetQueue : List α
  isEnabled : Bool
  stats : Stats
deriving Repr, DecidableEq

/-- Translation of the TWEETS_CAPTURED branch of the runtime message handler:
when enabled, append the incoming tweets, bump the collected counter, and
record whether the queue has reached the batch size, which is the condition
under which the handler calls `sendBatch()` immediately; when disabled, the
branch body does not run at all. The returned flag is whether an immediate
flush starts inside this intake. -/
def onTweetsCaptured {α : Type} (s : CollectorState α) (newTweets : List α) :
    CollectorState α × Bool :=
  if s.isEnabled then
    let s1 : CollectorState α :=
      { s with
        tweetQueue := s.tweetQueue ++ newTweets,
        stats := { s.stats with
          tweetsCollected := s.stats.tweetsCollected + newTweets.length } }
    (s1, decide (s1.tweetQueue.length ≥ BATCH_SIZE))
  else (s, false)

/-- Translation of the `setInterval` timer body: it calls `sendBatch()`
exactly when the queue is non-empty and collection is enabled. The value is
whether a flush attempt starts on this tick. -/
def timerTick {α : Type} (s : CollectorState α) : Bool :=
  s.tweetQueue.length > 0 && s.isEnabled

/-- The synchronous first half of `sendBatch`, up to the `await` of the
network call: an empty queue returns without a batch; otherwise the first
`BATCH_SIZE` items are spliced out of the queue before anything is awaited. -/
def sendBatchStart {α : Type} (s : CollectorState α) :
    CollectorState α × Option (List α) :=
  if s.tweetQueue.length = 0 then (s, none)
  else ({ s with tweetQueue := s.tweetQueue.drop BATCH_SIZE },
        some (s.tweetQueue.take BATCH_SIZE))

/-- Outcome of the awaited delivery call: a 2xx response carrying the
optional `tweets_added` field of the JSON body, together with the clock value
used for the timestamp, or a failure (non-2xx response or thrown network
error, which the source handles identically). -/
inductive SendOutcome where
  | success (tweets_added : Option Nat) (now : Nat)
  | failure
deriving Repr, DecidableEq

/-- The continuation of `sendBatch` after the network call resolves: on
success, add `result.tweets_added || batch.length` to the sent counter (the
JavaScript fallback fires when the field is absent and also when it is 0) and
record the timestamp; on failure, unshift the removed batch back onto the
front of the queue and leave the statistics untouched. -/
def sendBatchFinish {α : Type} (s : CollectorState α) (batch : List α)
    (r : SendOutcome) : CollectorState α :=
  match r with
  | .success added now =>
      { s with stats := { s.stats with
          tweetsSent := s.stats.tweetsSent +
            (match added with
             | some k => if k != 0 then k else batch.length
             | none => batch.length),
          lastSentAt := some now } }
  | .failure => { s with tweetQueue := batch ++ s.tweetQueue }

/-- Translation of the RESET_STATS branch of the message handler: replace the
statistics with the zero object; nothing else is touched. -/
def resetStats {α : Type} (s : CollectorState α) : CollectorState α :=
  { s with stats := { tweetsCollected := 0, tweetsSent := 0, lastSentAt := none } }

/-- A sequence of intake events applied in order: the enqueue steps of the
message handler as they interleave with an in-flight delivery at its await
point. -/
def intakeRun {α : Type} (s : CollectorState α) (arrivals : List (List α)) :
    CollectorState α :=
  arrivals.foldl (fun st ts => (onTweetsCaptured st ts).1) s

/- Helper lemmas about the JavaScript value helpers. -/

@[simp]
theorem truthyO_none : truthyO none = false := rfl

@[simp]
theorem truthyO_some (j : Json) : truthyO (some j) = truthy j := rfl

theorem jsOr_of_truthy {a b : Option Json} (h : truthyO a = true) : jsOr a b = a := by
  simp [jsOr, h]

theorem jsOr_of_falsy {a b : Option Json} (h : truthyO a = false) : jsOr a b = b := by
  simp [jsOr, h]

@[simp]
theorem truthyO_jsOr (a b : Option Json) :
    truthyO (jsOr a b) = (truthyO a || truthyO b) := by
  by_cases h : truthyO a = true
  · simp [jsOr, h]
  · simp only [Bool.not_eq_true] at h
    simp [jsOr, h]

@[simp]
theorem isTweetNode_arr (elems : List Json) : isTweetNode (Json.arr elems) = false := by
  simp [isTweetNode, Json.get]

theorem isTweetNode_rest_id {j : Json} (h : isTweetNode j = true) :
    truthyO (j.get "rest_id") = true := by
  simp only [isTweetNode, Bool.and_eq_true] at h
  exact h.2

theorem bool_true_of_not_not {b : Bool} (h : ¬(!b) = true) : b = true := by
  cases b
  · exact absurd rfl h
  · rfl

/- Clean unfolding equations for the depth-bounded walk and its companions. -/

theorem findTweets_deep {j : Json} {depth : Nat} (h : depth > 20) :
    findTweets j depth = [] := by
  rw [findTweets.eq_def]; simp [h]

theorem findTweets_prim {depth : Nat} {j : Json} (h : j.isObjLike = false) :
    findTweets j depth = [] := by
  rw [findTweets.eq_def]; simp [h]

theorem findTweets_arr {elems : List Json} {depth : Nat} (h : ¬ depth > 20) :
    findTweets (Json.arr elems) depth =
      elems.flatMap (fun item => findTweets item (depth + 1)) := by
  rw [findTweets.eq_def]; simp [h, Json.isObjLike]

theorem findTweets_obj_hit {fields : List (String × Json)} {depth : Nat}
    (h : ¬ depth > 20) (ht : isTweetNode (Json.obj fields) = true) :
    findTweets (Json.obj fields) depth = (parseTweetObject (Json.obj fields)).toList := by
  rw [findTweets.eq_def]; simp [h, Json.isObjLike, ht]

theorem findTweets_obj_rec {fields : List (String × Json)} {depth : Nat}
    (h : ¬ depth > 20) (ht : isTweetNode (Json.obj fields) = false) :
    findTweets (Json.obj fields) depth =
      fields.flatMap (fun f => findTweets f.2 (depth + 1)) := by
  rw [findTweets.eq_def]; simp [h, Json.isObjLike, ht]

/-- Every record the walk emits is the parse of some qualifying node. The
outer induction is on a fuel bound for the remaining depth budget. -/
theorem mem_findTweets_aux (fuel : Nat) :
    ∀ (depth : Nat) (j : Json) (t : CapturedTweet), 21 - depth ≤ fuel →
      t ∈ findTweets j depth →
      ∃ node, isTweetNode node = true ∧ parseTweetObject node = some t := by
  induction fuel with
  | zero =>
      intro depth j t hle hmem
      rw [findTweets_deep (by omega)] at hmem
      simp at hmem
  | succ m ih =>
      intro depth j t hle hmem
      by_cases hd : depth > 20
      · rw [findTweets_deep hd] at hmem
        simp at hmem
      · cases j with
        | arr elems =>
            rw [findTweets_arr hd] at hmem
            simp only [List.mem_flatMap] at hmem
            obtain ⟨item, _hitem, hmem⟩ := hmem
            exact ih (depth + 1) item t (by omega) hmem
        | obj fields =>
            by_cases htw : isTweetNode (Json.obj fields) = true
            · rw [findTweets_obj_hit hd htw] at hmem
              refine ⟨Json.obj fields, htw, ?_⟩
              cases hp : parseTweetObject (Json.obj fields) with
              | none => simp [hp] at hmem
              | some t0 =>
                  simp only [hp, Option.toList_some, List.mem_singleton] at hmem
                  rw [hmem]
            · rw [findTweets_obj_rec hd (Bool.not_eq_true _ ▸ htw)] at hmem
              simp only [List.mem_flatMap] at hmem
              obtain ⟨f, _hf, hmem⟩ := hmem
              exact ih (depth + 1) f.2 t (by omega) hmem
        | null => rw [findTweets_prim (by simp [Json.isObjLike])] at hmem; simp at hmem
        | bool b => rw [findTweets_prim (by simp [Json.isObjLike])] at hmem; simp at hmem
        | num n => rw [findTweets_prim (by simp [Json.isObjLike])] at hmem; simp at hmem
        | str s => rw [findTweets_prim (by simp [Json.isObjLike])] at hmem; simp at hmem

/-- Specialization to the Extractor entry point. -/
theorem mem_extractTweets {data : Json} {t : CapturedTweet}
    (h : t ∈ extractTweets data) :
    ∃ node, isTweetNode node = true ∧ parseTweetObject node = some t :=
  mem_findTweets_aux 21 0 data t (by omega) h

/- Unfolding equations for the spec-side count and for the side condition. -/

theorem countTweetNodes_deep {j : Json} {depth : Nat} (h : depth > 20) :
    countTweetNodes j depth = 0 := by
  rw [countTweetNodes.eq_def]; simp [h]

theorem countTweetNodes_prim {depth : Nat} {j : Json} (h : j.isObjLike = false) :
    countTweetNodes j depth = 0 := by
  rw [countTweetNodes.eq_def]; simp [h]

theorem countTweetNodes_arr {elems : List Json} {depth : Nat} (h : ¬ depth > 20) :
    countTweetNodes (Json.arr elems) depth =
      (elems.map (fun item => countTweetNodes item (depth + 1))).sum := by
  rw [countTweetNodes.eq_def]; simp [h, Json.isObjLike]

theorem countTweetNodes_obj {fields : List (String × Json)} {depth : Nat}
    (h : ¬ depth > 20) :
    countTweetNodes (Json.obj fields) depth =
      (if isTweetNode (Json.obj fields) then 1 else 0) +
        (fields.map (fun f => countTweetNodes f.2 (depth + 1))).sum := by
  rw [countTweetNodes.eq_def]; simp [h, Json.isObjLike]

theorem wellPlaced_deep {j : Json} {depth : Nat} (h : depth > 20) :
    wellPlaced j depth = true := by
  rw [wellPlaced.eq_def]; simp [h]

theorem wellPlaced_arr {elems : List Json} {depth : Nat} (h : ¬ depth > 20) :
    wellPlaced (Json.arr elems) depth =
      elems.all (fun item => wellPlaced item (depth + 1)) := by
  rw [wellPlaced.eq_def]; simp [h, Json.isObjLike]

theorem wellPlaced_obj_hit {fields : List (String × Json)} {depth : Nat}
    (h : ¬ depth > 20) (ht : isTweetNode (Json.obj fields) = true) :
    wellPlaced (Json.obj fields) depth =
      ((parseTweetObject (Json.obj fields)).isSome &&
        fields.all (fun f => countTweetNodes f.2 (depth + 1) == 0)) := by
  rw [wellPlaced.eq_def]; simp [h, Json.isObjLike, ht]

theorem wellPlaced_obj_rec {fields : List (String × Json)} {depth : Nat}
    (h : ¬ depth > 20) (ht : isTweetNode (Json.obj fields) = false) :
    wellPlaced (Json.obj fields) depth =
      fields.all (fun f => wellPlaced f.2 (depth + 1)) := by
  rw [wellPlaced.eq_def]; simp [h, Json.isObjLike, ht]

/-- Under the side condition the walk emits one record per counted node. -/
theorem findTweets_length_eq_count_aux (fuel : Nat) :
    ∀ (depth : Nat) (j : Json), 21 - depth ≤ fuel → wellPlaced j depth = true →
      (findTweets j depth).length = countTweetNodes j depth := by
  induction fuel with
  | zero =>
      intro depth j hle _
      rw [findTweets_deep (by omega), countTweetNodes_deep (by omega)]
      rfl
  | succ m ih =>
      intro depth j hle hw
      by_cases hd : depth > 20
      · rw [findTweets_deep hd, countTweetNodes_deep hd]; rfl
      · cases j with
        | arr elems =>
            rw [findTweets_arr hd, countTweetNodes_arr hd, List.length_flatMap]
            rw [wellPlaced_arr hd, List.all_eq_true] at hw
            apply congrArg List.sum
            apply List.map_congr_left
            intro item hitem
            exact ih (depth + 1) item (by omega) (hw item hitem)
        | obj fields =>
            by_cases htw : isTweetNode (Json.obj fields) = true
            · rw [findTweets_obj_hit hd htw, countTweetNodes_obj hd, if_pos htw]
              rw [wellPlaced_obj_hit hd htw, Bool.and_eq_true] at hw
              obtain ⟨hsome, hall⟩ := hw
              have hzero : (fields.map (fun f => countTweetNodes f.2 (depth + 1))).sum = 0 := by
                apply List.sum_eq_zero
                intro x hx
                rw [List.mem_map] at hx
                obtain ⟨f, hf, hfx⟩ := hx
                rw [List.all_eq_true] at hall
                have := hall f hf
                rw [beq_iff_eq] at this
                rw [← hfx]
                exact this
              rw [hzero]
              cases hp : parseTweetObject (Json.obj fields) with
              | none => rw [hp] at hsome; simp at hsome
              | some t => simp [hp]
            · have htw' : isTweetNode (Json.obj fields) = false := by
                simpa using htw
              rw [findTweets_obj_rec hd htw', countTweetNodes_obj hd, if_neg htw,
                List.length_flatMap]
              rw [wellPlaced_obj_rec hd htw', List.all_eq_true] at hw
              rw [Nat.zero_add]
              apply congrArg List.sum
              apply List.map_congr_left
              intro f hf
              exact ih (depth + 1) f.2 (by omega) (hw f hf)
        | null =>
            rw [findTweets_prim (by simp [Json.isObjLike]),
              countTweetNodes_prim (by simp [Json.isObjLike])]
            rfl
        | bool b =>
            rw [findTweets_prim (by simp [Json.isObjLike]),
              countTweetNodes_prim (by simp [Json.isObjLike])]
            rfl
        | num n =>
            rw [findTweets_prim (by simp [Json.isObjLike]),
              countTweetNodes_prim (by simp [Json.isObjLike])]
            rfl
        | str s =>
            rw [findTweets_prim (by simp [Json.isObjLike]),
              countTweetNodes_prim (by simp [Json.isObjLike])]
            rfl

/-- A parsed record keeps a truthy identifier (from the structural guard on
`rest_id`) and a truthy author handle (from the username guard). -/
theorem parseTweetObject_id_username {n : Json} {t : CapturedTweet}
    (hn : isTweetNode n = true) (hp : parseTweetObject n = some t) :
    truthyO t.id = true ∧ truthyO t.author.username = true := by
  simp only [parseTweetObject] at hp
  split_ifs at hp with h1 h2 h3
  all_goals
    (have ht := Option.some.inj hp
     subst ht
     constructor
     · show truthyO (jsOr (n.get "rest_id") (getO (n.get "legacy") "id_str")) = true
       rw [jsOr_of_truthy (isTweetNode_rest_id hn)]
       exact isTweetNode_rest_id hn
     · exact bool_true_of_not_not h3)

/- Concrete payloads used as counterexamples and witnesses. -/

/-- A fully populated tweet node of the shape the injected script parses. -/
def fullTweetNode : Json := Json.obj [
  ("__typename", Json.str "Tweet"),
  ("rest_id", Json.str "101"),
  ("legacy", Json.obj [
    ("full_text", Json.str "hello world"),
    ("created_at", Json.str "Wed Oct 01 10:00:00 2025"),
    ("retweet_count", Json.num 3),
    ("favorite_count", Json.num 7)]),
  ("views", Json.obj [("count", Json.str "1234")]),
  ("core", Json.obj [("user_results", Json.obj [("result", Json.obj [
    ("rest_id", Json.str "u1"),
    ("core", Json.obj [("screen_name", Json.str "alice"), ("name", Json.str "Alice")]),
    ("legacy", Json.obj [("followers_count", Json.num 10)])])])])]

/-- A second valid tweet node, used as a sibling in witnesses. -/
def secondTweetNode : Json := Json.obj [
  ("__typename", Json.str "Tweet"),
  ("rest_id", Json.str "102"),
  ("legacy", Json.obj [("full_text", Json.str "second")]),
  ("core", Json.obj [("user_results", Json.obj [("result", Json.obj [
    ("rest_id", Json.str "u2"),
    ("core", Json.obj [("screen_name", Json.str "bob")])])])])]

/-- A qualifying node whose legacy object carries neither `full_text` nor
`text`: it passes all three viability guards and is emitted anyway. -/
def textlessTweetNode : Json := Json.obj [
  ("__typename", Json.str "Tweet"),
  ("rest_id", Json.str "103"),
  ("legacy", Json.obj [("id_str", Json.str "103")]),
  ("core", Json.obj [("user_results", Json.obj [("result", Json.obj [
    ("core", Json.obj [("screen_name", Json.str "carol")])])])])]

/-- The simp set that evaluates the Extractor on a concrete payload. -/
theorem extractTweets_textless_emits :
    (extractTweets textlessTweetNode).map (fun t => truthyO t.text) = [false] := by
  simp [textlessTweetNode, extractTweets, findTweets, isTweetNode, parseTweetObject,
    Json.get, getO, truthyO, truthy, jsOr, Json.isObjLike]

/-- Counterexample to the claim that every emitted CapturedTweet has non-empty
text: this payload yields exactly one record and its text field is falsy
(undefined), because `parseTweetObject` never checks the text. -/
theorem emitted_tweet_empty_text_cex :
    (extractTweets textlessTweetNode).length = 1 ∧
    (extractTweets textlessTweetNode).map (fun t => truthyO t.text) = [false] := by
  constructor
  · simp [textlessTweetNode, extractTweets, findTweets, isTweetNode, parseTweetObject,
      Json.get, getO, truthyO, truthy, jsOr, Json.isObjLike]
  · exact extractTweets_textless_emits

/-- Amended invariant of the Extractor: every emitted record has a truthy
(non-empty) identifier and an author with a truthy (non-empty) handle; the
text field carries no such guarantee. Nonviable qualifying nodes contribute
nothing and the walk continues past them. -/
theorem emitted_tweet_id_handle_truthy (data : Json) :
    (extractTweets data).all
      (fun t => truthyO t.id && truthyO t.author.username) = true := by
  rw [List.all_eq_true]
  intro t ht
  obtain ⟨node, hn, hp⟩ := mem_extractTweets ht
  obtain ⟨h1, h2⟩ := parseTweetObject_id_username hn hp
  simp [h1, h2]

/-- The Bridge is broken by an event-name mismatch: the injected script
dispatches under one name while the content script listens under another, so
a non-empty extracted batch is dispatched but never received; no
tweets-captured message is produced. -/
theorem bridge_event_name_mismatch :
    dispatchedEventName ≠ listenedEventName ∧
    (extractTweets fullTweetNode).length = 1 ∧
    extractAndSendTweets fullTweetNode =
      some (dispatchedEventName, extractTweets fullTweetNode) ∧
    contentScriptReceive dispatchedEventName (extractTweets fullTweetNode) = none := by
  have hlen : (extractTweets fullTweetNode).length = 1 := by
    simp [fullTweetNode, extractTweets, findTweets, isTweetNode, parseTweetObject,
      Json.get, getO, truthyO, truthy, jsOr, Json.isObjLike]
  refine ⟨by decide, hlen, ?_, ?_⟩
  · simp [extractAndSendTweets, hlen]
  · have hne : (dispatchedEventName == listenedEventName) = false := by decide
    simp [contentScriptReceive, hne]

/-- A parseable tweet node carrying a second parseable tweet node nested
inside it (as a quoted status). The walk stops at the outer node, so only one
record is extracted even though two structurally-valid nodes are present. -/
def nestedTweetPayload : Json := Json.obj [
  ("__typename", Json.str "Tweet"),
  ("rest_id", Json.str "201"),
  ("legacy", Json.obj [("full_text", Json.str "outer")]),
  ("core", Json.obj [("user_results", Json.obj [("result", Json.obj [
    ("core", Json.obj [("screen_name", Json.str "dave")])])])]),
  ("quoted_status_result", Json.obj [("result", secondTweetNode)])]

/-- Counterexample to extraction completeness as claimed: this payload holds
two structurally-valid tweet nodes within the depth bound, one nested inside
the other, and the Extractor returns one record, not two. -/
theorem nested_tweet_not_extracted_cex :
    countTweetNodes nestedTweetPayload 0 = 2 ∧
    (extractTweets nestedTweetPayload).length = 1 := by
  constructor
  · simp [nestedTweetPayload, secondTweetNode, countTweetNodes, isTweetNode,
      Json.get, getO, truthyO, truthy, Json.isObjLike]
  · simp [nestedTweetPayload, secondTweetNode, extractTweets, findTweets, isTweetNode,
      parseTweetObject, Json.get, getO, truthyO, truthy, jsOr, Json.isObjLike]

/-- Amended extraction completeness: when no structurally-valid tweet node
sits inside another one (within the depth bound of 20) and every such node
passes the viability guards, the Extractor returns exactly one CapturedTweet
per structurally-valid tweet node. -/
theorem extraction_complete_wellPlaced (data : Json)
    (h : wellPlaced data 0 = true) :
    (extractTweets data).length = countTweetNodes data 0 :=
  findTweets_length_eq_count_aux 21 0 data (by omega) h

/-- A payload with two sibling tweet nodes under ordinary wrapping. -/
def twoTweetPayload : Json := Json.obj [
  ("data", Json.arr [
    Json.obj [("tweet_results", Json.obj [("result", fullTweetNode)])],
    Json.obj [("tweet_results", Json.obj [("result", secondTweetNode)])]])]

theorem extraction_complete_wellPlaced_witness :
    wellPlaced twoTweetPayload 0 = true ∧
    countTweetNodes twoTweetPayload 0 = 2 ∧
    (extractTweets twoTweetPayload).length = countTweetNodes twoTweetPayload 0 := by
  have hw : wellPlaced twoTweetPayload 0 = true := by
    simp [twoTweetPayload, fullTweetNode, secondTweetNode, wellPlaced, countTweetNodes,
      isTweetNode, parseTweetObject, Json.get, getO, truthyO, truthy, jsOr,
      Json.isObjLike, parseIntStr, digitsToNat, jsParseInt]
  refine ⟨hw, ?_, extraction_complete_wellPlaced twoTweetPayload hw⟩
  simp [twoTweetPayload, fullTweetNode, secondTweetNode, countTweetNodes, isTweetNode,
    Json.get, getO, truthyO, truthy, Json.isObjLike]

/-- The author-handle resolution performed inside `parseTweetObject` (its
`username` binding): the core screen name with the legacy screen name as
fallback. -/
def resolvedUsername (m : Json) : Option Json :=
  let userResult := getO (getO (m.get "core") "user_results") "result"
  let userCore := jsOr (getO userResult "core") (some (Json.obj []))
  let userLegacy := jsOr (getO userResult "legacy") (some (Json.obj []))
  jsOr (getO userCore "screen_name") (getO userLegacy "screen_name")

/-- A counter field that is absent or holds a non-negative integer always
produces `some (num k)` with the source value, or the literal 0 default. -/
theorem jsOr_num_default {o : Option Json}
    (h : ∀ v, o = some v → ∃ k : Int, v = Json.num k ∧ 0 ≤ k) :
    ∃ k : Int, 0 ≤ k ∧ jsOr o (some (Json.num 0)) = some (Json.num k) ∧
      (o = none → k = 0) := by
  cases o with
  | none => exact ⟨0, le_refl 0, by simp [jsOr, truthyO], fun _ => rfl⟩
  | some v =>
      obtain ⟨k, rfl, hk⟩ := h v rfl
      by_cases hk0 : k = 0
      · subst hk0
        exact ⟨0, le_refl 0, by simp [jsOr, truthyO, truthy], fun h' => Option.noConfusion h'⟩
      · exact ⟨k, hk, by simp [jsOr, truthyO, truthy, hk0], fun h' => Option.noConfusion h'⟩

/-- `parseInt` on a non-empty all-digit string returns the (non-negative)
numeric value. -/
theorem parseIntStr_digits_nonneg {s : String} (hne : s.data ≠ [])
    (hdig : ∀ c ∈ s.data, c.isDigit = true) :
    ∃ k : Int, 0 ≤ k ∧ parseIntStr s = some k := by
  unfold parseIntStr
  split
  · next rest heq =>
      exfalso
      have hmem : '-' ∈ s.data := by rw [heq]; exact List.mem_cons_self _ _
      have := hdig '-' hmem
      simp [Char.isDigit] at this
  · next rest heq =>
      exfalso
      have hmem : '+' ∈ s.data := by rw [heq]; exact List.mem_cons_self _ _
      have := hdig '+' hmem
      simp [Char.isDigit] at this
  · next l h1 h2 =>
      have htake : s.data.takeWhile (fun c => c.isDigit) = s.data :=
        List.takeWhile_eq_self_iff.mpr hdig
      have hle : s.data.isEmpty = false := by
        cases hl : s.data with
        | nil => exact absurd hl hne
        | cons c cs => rfl
      refine ⟨(digitsToNat s.data : Int), Int.natCast_nonneg _, ?_⟩
      simp only [htake, hle]
      simp

/-- Field equations of a successfully parsed record, read off from the
record literal in `parseTweetObject`. -/
theorem parseTweetObject_fields {n : Json} {t : CapturedTweet}
    (hp : parseTweetObject n = some t) :
    t.retweet_count = jsOr (getO (n.get "legacy") "retweet_count") (some (Json.num 0)) ∧
    t.reply_count = jsOr (getO (n.get "legacy") "reply_count") (some (Json.num 0)) ∧
    t.like_count = jsOr (getO (n.get "legacy") "favorite_count") (some (Json.num 0)) ∧
    t.quote_count = jsOr (getO (n.get "legacy") "quote_count") (some (Json.num 0)) ∧
    t.bookmark_count = jsOr (getO (n.get "legacy") "bookmark_count") (some (Json.num 0)) ∧
    t.impression_count = (match getO (n.get "views") "count" with
      | some v => if truthy v then jsParseInt v else some 0
      | none => some 0) := by
  simp only [parseTweetObject] at hp
  split_ifs at hp
  all_goals
    (have ht := Option.some.inj hp
     subst ht
     exact ⟨rfl, rfl, rfl, rfl, rfl, rfl⟩)

/-- Engagement counters of an emitted record are non-negative integers when
the corresponding source fields are absent or carry non-negative integers,
and each defaults to 0 when absent; in addition, a node whose author handle
does not resolve to a truthy value is never emitted. -/
theorem counters_nonneg_defaulted (n : Json) (t : CapturedTweet)
    (hp : parseTweetObject n = some t)
    (hcounts : ∀ v,
      (getO (n.get "legacy") "retweet_count" = some v ∨
       getO (n.get "legacy") "reply_count" = some v ∨
       getO (n.get "legacy") "favorite_count" = some v ∨
       getO (n.get "legacy") "quote_count" = some v ∨
       getO (n.get "legacy") "bookmark_count" = some v) →
      ∃ k : Int, v = Json.num k ∧ 0 ≤ k)
    (hviews : ∀ v, getO (n.get "views") "count" = some v → truthy v = true →
      ∃ s, v = Json.str s ∧ s.data ≠ [] ∧ ∀ c ∈ s.data, c.isDigit = true) :
    (∃ k : Int, 0 ≤ k ∧ t.retweet_count = some (Json.num k) ∧
      (getO (n.get "legacy") "retweet_count" = none → k = 0)) ∧
    (∃ k : Int, 0 ≤ k ∧ t.reply_count = some (Json.num k) ∧
      (getO (n.get "legacy") "reply_count" = none → k = 0)) ∧
    (∃ k : Int, 0 ≤ k ∧ t.like_count = some (Json.num k) ∧
      (getO (n.get "legacy") "favorite_count" = none → k = 0)) ∧
    (∃ k : Int, 0 ≤ k ∧ t.quote_count = some (Json.num k) ∧
      (getO (n.get "legacy") "quote_count" = none → k = 0)) ∧
    (∃ k : Int, 0 ≤ k ∧ t.bookmark_count = some (Json.num k) ∧
      (getO (n.get "legacy") "bookmark_count" = none → k = 0)) ∧
    (∃ k : Int, 0 ≤ k ∧ t.impression_count = some k ∧
      (getO (n.get "views") "count" = none → k = 0)) ∧
    (∀ m : Json, truthyO (resolvedUsername m) = false → parseTweetObject m = none) := by
  obtain ⟨e1, e2, e3, e4, e5, e6⟩ := parseTweetObject_fields hp
  refine ⟨?_, ?_, ?_, ?_, ?_, ?_, ?_⟩
  · obtain ⟨k, hk0, heq, himp⟩ :=
      jsOr_num_default (fun v hv => hcounts v (Or.inl hv))
    exact ⟨k, hk0, e1.trans heq, himp⟩
  · obtain ⟨k, hk0, heq, himp⟩ :=
      jsOr_num_default (fun v hv => hcounts v (Or.inr (Or.inl hv)))
    exact ⟨k, hk0, e2.trans heq, himp⟩
  · obtain ⟨k, hk0, heq, himp⟩ :=
      jsOr_num_default (fun v hv => hcounts v (Or.inr (Or.inr (Or.inl hv))))
    exact ⟨k, hk0, e3.trans heq, himp⟩
  · obtain ⟨k, hk0, heq, himp⟩ :=
      jsOr_num_default (fun v hv => hcounts v (Or.inr (Or.inr (Or.inr (Or.inl hv)))))
    exact ⟨k, hk0, e4.trans heq, himp⟩
  · obtain ⟨k, hk0, heq, himp⟩ :=
      jsOr_num_default (fun v hv => hcounts v (Or.inr (Or.inr (Or.inr (Or.inr hv)))))
    exact ⟨k, hk0, e5.trans heq, himp⟩
  · rcases hv : getO (n.get "views") "count" with _ | v
    · refine ⟨0, le_refl 0, ?_, fun _ => rfl⟩
      rw [e6, hv]
    · by_cases htr : truthy v = true
      · obtain ⟨s, rfl, hne, hdig⟩ := hviews v hv htr
        obtain ⟨k, hk0, hps⟩ := parseIntStr_digits_nonneg hne hdig
        refine ⟨k, hk0, ?_, fun h' => Option.noConfusion h'⟩
        rw [e6, hv]
        simp [htr, jsParseInt, hps]
      · have htr' : truthy v = false := by simpa using htr
        refine ⟨0, le_refl 0, ?_, fun h' => Option.noConfusion h'⟩
        rw [e6, hv]
        simp [htr']
  · intro m hm
    simp only [resolvedUsername] at hm
    simp only [parseTweetObject]
    split_ifs with g1 g2 g3
    all_goals try rfl
    all_goals
      (exfalso
       rw [bool_true_of_not_not g3] at hm
       exact Bool.noConfusion hm)

theorem counters_nonneg_defaulted_witness :
    ∃ t, parseTweetObject fullTweetNode = some t ∧
      ((∃ k : Int, 0 ≤ k ∧ t.retweet_count = some (Json.num k) ∧
        (getO (fullTweetNode.get "legacy") "retweet_count" = none → k = 0)) ∧
      (∃ k : Int, 0 ≤ k ∧ t.reply_count = some (Json.num k) ∧
        (getO (fullTweetNode.get "legacy") "reply_count" = none → k = 0)) ∧
      (∃ k : Int, 0 ≤ k ∧ t.like_count = some (Json.num k) ∧
        (getO (fullTweetNode.get "legacy") "favorite_count" = none → k = 0)) ∧
      (∃ k : Int, 0 ≤ k ∧ t.quote_count = some (Json.num k) ∧
        (getO (fullTweetNode.get "legacy") "quote_count" = none → k = 0)) ∧
      (∃ k : Int, 0 ≤ k ∧ t.bookmark_count = some (Json.num k) ∧
        (getO (fullTweetNode.get "legacy") "bookmark_count" = none → k = 0)) ∧
      (∃ k : Int, 0 ≤ k ∧ t.impression_count = some k ∧
        (getO (fullTweetNode.get "views") "count" = none → k = 0)) ∧
      (∀ m : Json, truthyO (resolvedUsername m) = false → parseTweetObject m = none)) := by
  cases hp : parseTweetObject fullTweetNode with
  | none =>
      exact absurd hp (by simp [fullTweetNode, parseTweetObject, Json.get, getO,
        truthyO, truthy, jsOr])
  | some t =>
      refine ⟨t, rfl, counters_nonneg_defaulted fullTweetNode t hp ?_ ?_⟩
      · intro v hv
        rcases hv with hv | hv | hv | hv | hv <;>
          simp [fullTweetNode, Json.get, getO] at hv <;>
          subst hv <;>
          first
            | exact ⟨3, rfl, by norm_num⟩
            | exact ⟨7, rfl, by norm_num⟩
      · intro v hv _htr
        simp [fullTweetNode, Json.get, getO] at hv
        subst hv
        exact ⟨"1234", rfl, by decide, by decide⟩

/- Collector lemmas. -/

theorem intakeRun_cons {α : Type} (s : CollectorState α) (ts : List α)
    (rest : List (List α)) :
    intakeRun s (ts :: rest) = intakeRun (onTweetsCaptured s ts).1 rest := rfl

/-- With collection enabled, a run of intake events appends all arriving
tweets to the queue in order and bumps the collected counter by their total
size; the flag, the sent counter and the timestamp never change. -/
theorem intakeRun_enabled {α : Type} (arrivals : List (List α)) :
    ∀ (s : CollectorState α), s.isEnabled = true →
      intakeRun s arrivals =
        { s with
          tweetQueue := s.tweetQueue ++ arrivals.flatten,
          stats := { s.stats with
            tweetsCollected :=
              s.stats.tweetsCollected + (arrivals.map List.length).sum } } := by
  induction arrivals with
  | nil =>
      intro s hen
      cases s with
      | mk q e st =>
          cases st
          simp [intakeRun]
  | cons ts rest ih =>
      intro s hen
      rw [intakeRun_cons]
      have hen1 : (onTweetsCaptured s ts).1.isEnabled = true := by
        simp [onTweetsCaptured, hen]
      rw [ih (onTweetsCaptured s ts).1 hen1]
      cases s with
      | mk q e st =>
          cases st with
          | mk c sn la =>
              simp at hen
              subst hen
              simp [onTweetsCaptured, List.append_assoc, Nat.add_assoc]

/-- The flush timer only starts a delivery when collection is enabled and the
queue is non-empty, and intake while disabled is discarded whole: after
`setEnabled(false)` the pre-existing queue is retained, not drained. -/
theorem disabled_gates_tick_and_intake {α : Type} (s : CollectorState α)
    (h : s.isEnabled = false) :
    timerTick s = false ∧ ∀ ts, onTweetsCaptured s ts = (s, false) := by
  constructor
  · simp [timerTick, h]
  · intro ts
    simp [onTweetsCaptured, h]

/-- The zeroed statistics object. -/
def emptyStats : Stats := { tweetsCollected := 0, tweetsSent := 0, lastSentAt := none }

/-- A disabled collector with one queued tweet. -/
def disabledNonEmpty : CollectorState Nat :=
  { tweetQueue := [0], isEnabled := false,
    stats := { tweetsCollected := 1, tweetsSent := 0, lastSentAt := none } }

/-- Counterexample to the claim that a timer tick still flushes while
disabled: with a non-empty queue and the flag off, the timer body does not
call `sendBatch` at all. -/
theorem disabled_tick_no_flush_cex :
    disabledNonEmpty.isEnabled = false ∧
    disabledNonEmpty.tweetQueue.length > 0 ∧
    timerTick disabledNonEmpty = false := by decide

theorem disabled_gates_tick_and_intake_witness :
    disabledNonEmpty.isEnabled = false ∧
    timerTick disabledNonEmpty = false ∧
    onTweetsCaptured disabledNonEmpty [5] = (disabledNonEmpty, false) :=
  ⟨rfl, (disabled_gates_tick_and_intake disabledNonEmpty rfl).1,
    (disabled_gates_tick_and_intake disabledNonEmpty rfl).2 [5]⟩

/-- An enabled intake reports an immediate flush exactly when the appended
queue has reached the batch size, and the tweets land at the back of the
queue. -/
theorem threshold_triggers_immediate_flush {α : Type} (s : CollectorState α)
    (newTweets : List α) (hen : s.isEnabled = true) :
    (onTweetsCaptured s newTweets).2 =
      decide (BATCH_SIZE ≤ s.tweetQueue.length + newTweets.length) ∧
    (onTweetsCaptured s newTweets).1.tweetQueue = s.tweetQueue ++ newTweets := by
  simp [onTweetsCaptured, hen]

/-- An enabled collector one short of the batch size. -/
def almostFullState : CollectorState Nat :=
  { tweetQueue := List.replicate 49 0, isEnabled := true, stats := emptyStats }

theorem threshold_triggers_immediate_flush_witness :
    (onTweetsCaptured almostFullState [7]).2 = true ∧
    (onTweetsCaptured almostFullState [7]).1.tweetQueue =
      almostFullState.tweetQueue ++ [7] := by
  have h := threshold_triggers_immediate_flush almostFullState [7] rfl
  refine ⟨?_, h.2⟩
  rw [h.1]
  decide

theorem sendBatchStart_fst {α : Type} (s : CollectorState α)
    (h : ¬ s.tweetQueue.length = 0) :
    (sendBatchStart s).1 = { s with tweetQueue := s.tweetQueue.drop BATCH_SIZE } := by
  simp [sendBatchStart, h]

theorem sendBatchStart_snd {α : Type} (s : CollectorState α)
    (h : ¬ s.tweetQueue.length = 0) :
    (sendBatchStart s).2 = some (s.tweetQueue.take BATCH_SIZE) := by
  simp [sendBatchStart, h]

/-- The two halves of a flush episode on a non-empty queue: the batch is the
queue front, removed synchronously before the await; on failure the exact
batch returns to the front, the statistics are untouched, and the next flush
would send that batch (padded from later arrivals) first. -/
theorem flush_failure_requeues_batch_front {α : Type} (s : CollectorState α)
    (arrivals : List (List α)) (hne : s.tweetQueue ≠ []) (hen : s.isEnabled = true) :
    ∃ batch, (sendBatchStart s).2 = some batch ∧
      batch = s.tweetQueue.take BATCH_SIZE ∧
      (let s2 := intakeRun (sendBatchStart s).1 arrivals
       let s3 := sendBatchFinish s2 batch SendOutcome.failure
       s3.tweetQueue = batch ++ (s.tweetQueue.drop BATCH_SIZE ++ arrivals.flatten) ∧
       s3.tweetQueue.take batch.length = batch ∧
       s3.stats.tweetsSent = s.stats.tweetsSent ∧
       s3.stats.lastSentAt = s.stats.lastSentAt ∧
       ∃ tail, (sendBatchStart s3).2 = some (batch ++ tail)) := by
  have hlen : ¬ s.tweetQueue.length = 0 := by
    simpa [List.length_eq_zero] using hne
  have hstart1 : (sendBatchStart s).1 = { s with tweetQueue := s.tweetQueue.drop BATCH_SIZE } := by
    simp [sendBatchStart, hlen]
  have hstart2 : (sendBatchStart s).2 = some (s.tweetQueue.take BATCH_SIZE) := by
    simp [sendBatchStart, hlen]
  refine ⟨s.tweetQueue.take BATCH_SIZE, hstart2, rfl, ?_⟩
  have hen1 : (sendBatchStart s).1.isEnabled = true := by rw [hstart1]; exact hen
  have h2 := intakeRun_enabled arrivals (sendBatchStart s).1 hen1
  have hq2 : (intakeRun (sendBatchStart s).1 arrivals).tweetQueue =
      s.tweetQueue.drop BATCH_SIZE ++ arrivals.flatten := by rw [h2]; simp [hstart1]
  have hsent2 : (intakeRun (sendBatchStart s).1 arrivals).stats.tweetsSent =
      s.stats.tweetsSent := by rw [h2]; simp [hstart1]
  have hlast2 : (intakeRun (sendBatchStart s).1 arrivals).stats.lastSentAt =
      s.stats.lastSentAt := by rw [h2]; simp [hstart1]
  have hbatchlen : (s.tweetQueue.take BATCH_SIZE).length ≤ BATCH_SIZE := by
    simp [List.length_take]
  have hbne : (s.tweetQueue.take BATCH_SIZE) ≠ [] := by
    cases hq : s.tweetQueue with
    | nil => exact absurd hq hne
    | cons a l => simp [hq, BATCH_SIZE]
  refine ⟨?_, ?_, ?_, ?_, ?_⟩
  · simp [sendBatchFinish, hq2]
  · simp only [sendBatchFinish, hq2]
    exact List.take_left _ _
  · simp [sendBatchFinish, hsent2]
  · simp [sendBatchFinish, hlast2]
  · refine ⟨(s.tweetQueue.drop BATCH_SIZE ++ arrivals.flatten).take
      (BATCH_SIZE - (s.tweetQueue.take BATCH_SIZE).length), ?_⟩
    have hq3 : (sendBatchFinish (intakeRun (sendBatchStart s).1 arrivals)
        (s.tweetQueue.take BATCH_SIZE) SendOutcome.failure).tweetQueue =
        s.tweetQueue.take BATCH_SIZE ++ (s.tweetQueue.drop BATCH_SIZE ++ arrivals.flatten) := by
      simp [sendBatchFinish, hq2]
    have hpos : 0 < (s.tweetQueue.take BATCH_SIZE).length := List.length_pos.mpr hbne
    have hq3len : ¬ (sendBatchFinish (intakeRun (sendBatchStart s).1 arrivals)
        (s.tweetQueue.take BATCH_SIZE) SendOutcome.failure).tweetQueue.length = 0 := by
      rw [hq3]
      simp only [List.length_append]
      omega
    rw [sendBatchStart_snd _ hq3len, hq3, List.take_append_eq_append_take,
      List.take_of_length_le hbatchlen]

/-- The batch in flight is exactly the pre-existing queue front, removed
before the await: tweets arriving at the await point accumulate strictly
behind it, are never merged into it, and survive both outcomes (behind the
requeued batch on failure, as the whole queue on success). -/
theorem inflight_batch_isolation {α : Type} (s : CollectorState α)
    (arrivals : List (List α)) (r : SendOutcome)
    (hne : s.tweetQueue ≠ []) (hen : s.isEnabled = true) :
    ∃ batch, (sendBatchStart s).2 = some batch ∧
      batch = s.tweetQueue.take BATCH_SIZE ∧
      (sendBatchStart s).1.tweetQueue = s.tweetQueue.drop BATCH_SIZE ∧
      (let s2 := intakeRun (sendBatchStart s).1 arrivals
       s2.tweetQueue = s.tweetQueue.drop BATCH_SIZE ++ arrivals.flatten ∧
       (sendBatchFinish s2 batch r).tweetQueue =
         (match r with
          | SendOutcome.failure => batch ++ s2.tweetQueue
          | SendOutcome.success _ _ => s2.tweetQueue)) := by
  have hlen : ¬ s.tweetQueue.length = 0 := by
    simpa [List.length_eq_zero] using hne
  have hstart1 : (sendBatchStart s).1 = { s with tweetQueue := s.tweetQueue.drop BATCH_SIZE } := by
    simp [sendBatchStart, hlen]
  have hstart2 : (sendBatchStart s).2 = some (s.tweetQueue.take BATCH_SIZE) := by
    simp [sendBatchStart, hlen]
  have hen1 : (sendBatchStart s).1.isEnabled = true := by rw [hstart1]; exact hen
  have h2 := intakeRun_enabled arrivals (sendBatchStart s).1 hen1
  have hq2 : (intakeRun (sendBatchStart s).1 arrivals).tweetQueue =
      s.tweetQueue.drop BATCH_SIZE ++ arrivals.flatten := by rw [h2]; simp [hstart1]
  refine ⟨s.tweetQueue.take BATCH_SIZE, hstart2, rfl, by rw [hstart1], hq2, ?_⟩
  cases r with
  | success added now => simp [sendBatchFinish]
  | failure => simp [sendBatchFinish, hq2]

/-- On a successful flush the sent counter moves by the reported
`tweets_added` only when that report is a non-zero number; a report of 0 and
a missing report both fall back to the batch size. The timestamp is set and
the removed batch stays removed. -/
theorem sent_counter_fallback {α : Type} (s : CollectorState α)
    (added : Option Nat) (now : Nat) (hne : s.tweetQueue ≠ []) :
    ∃ batch, (sendBatchStart s).2 = some batch ∧
      batch = s.tweetQueue.take BATCH_SIZE ∧
      (let s3 := sendBatchFinish (sendBatchStart s).1 batch (SendOutcome.success added now)
       s3.tweetQueue = s.tweetQueue.drop BATCH_SIZE ∧
       s3.stats.lastSentAt = some now ∧
       s3.stats.tweetsCollected = s.stats.tweetsCollected ∧
       (∀ k, added = some k → k ≠ 0 → s3.stats.tweetsSent = s.stats.tweetsSent + k) ∧
       (added = some 0 ∨ added = none →
         s3.stats.tweetsSent = s.stats.tweetsSent + batch.length)) := by
  have hlen : ¬ s.tweetQueue.length = 0 := by
    simpa [List.length_eq_zero] using hne
  have hstart1 : (sendBatchStart s).1 = { s with tweetQueue := s.tweetQueue.drop BATCH_SIZE } := by
    simp [sendBatchStart, hlen]
  have hstart2 : (sendBatchStart s).2 = some (s.tweetQueue.take BATCH_SIZE) := by
    simp [sendBatchStart, hlen]
  refine ⟨s.tweetQueue.take BATCH_SIZE, hstart2, rfl, ?_, ?_, ?_, ?_, ?_⟩
  · rw [hstart1]; simp [sendBatchFinish]
  · simp [sendBatchFinish]
  · rw [hstart1]; simp [sendBatchFinish]
  · intro k hk hk0
    subst hk
    rw [hstart1]
    simp [sendBatchFinish, hk0]
  · intro hcase
    rcases hcase with hk | hk <;> subst hk <;> rw [hstart1] <;> simp [sendBatchFinish]

/-- A collector state with k = 0 exercised below. -/
def sentCexState : CollectorState Nat :=
  { tweetQueue := [42], isEnabled := true, stats := emptyStats }

/-- Counterexample to the claim that `sent` is incremented by exactly the
reported `tweets_added`: a success response reporting 0 newly-added tweets
bumps `sent` by the batch size 1, not by 0, because 0 is falsy under the
JavaScript fallback. -/
theorem sent_counter_zero_added_cex :
    (sendBatchFinish (sendBatchStart sentCexState).1 [42]
        (SendOutcome.success (some 0) 99)).stats.tweetsSent = 1 ∧
    (sendBatchStart sentCexState).2 = some [42] := by decide

theorem sent_counter_fallback_witness :
    ∃ batch, (sendBatchStart sentCexState).2 = some batch ∧
      batch = sentCexState.tweetQueue.take BATCH_SIZE ∧
      (let s3 := sendBatchFinish (sendBatchStart sentCexState).1 batch
          (SendOutcome.success (some 0) 99)
       s3.tweetQueue = sentCexState.tweetQueue.drop BATCH_SIZE ∧
       s3.stats.lastSentAt = some 99 ∧
       s3.stats.tweetsCollected = sentCexState.stats.tweetsCollected ∧
       (∀ k, (some 0 : Option Nat) = some k → k ≠ 0 →
         s3.stats.tweetsSent = sentCexState.stats.tweetsSent + k) ∧
       ((some 0 : Option Nat) = some 0 ∨ (some 0 : Option Nat) = none →
         s3.stats.tweetsSent = sentCexState.stats.tweetsSent + batch.length)) :=
  sent_counter_fallback sentCexState (some 0) 99 (by decide)

/-- A small enabled collector state used by the episode witnesses. -/
def smallState : CollectorState Nat :=
  { tweetQueue := [1, 2, 3], isEnabled := true, stats := emptyStats }

theorem flush_failure_requeues_batch_front_witness :
    ∃ batch, (sendBatchStart smallState).2 = some batch ∧
      batch = smallState.tweetQueue.take BATCH_SIZE ∧
      (let s2 := intakeRun (sendBatchStart smallState).1 [[4], [5]]
       let s3 := sendBatchFinish s2 batch SendOutcome.failure
       s3.tweetQueue = batch ++ (smallState.tweetQueue.drop BATCH_SIZE ++ [[4], [5]].flatten) ∧
       s3.tweetQueue.take batch.length = batch ∧
       s3.stats.tweetsSent = smallState.stats.tweetsSent ∧
       s3.stats.lastSentAt = smallState.stats.lastSentAt ∧
       ∃ tail, (sendBatchStart s3).2 = some (batch ++ tail)) :=
  flush_failure_requeues_batch_front smallState [[4], [5]] (by decide) rfl

theorem inflight_batch_isolation_witness :
    ∃ batch, (sendBatchStart smallState).2 = some batch ∧
      batch = smallState.tweetQueue.take BATCH_SIZE ∧
      (sendBatchStart smallState).1.tweetQueue = smallState.tweetQueue.drop BATCH_SIZE ∧
      (let s2 := intakeRun (sendBatchStart smallState).1 [[6]]
       s2.tweetQueue = smallState.tweetQueue.drop BATCH_SIZE ++ [[6]].flatten ∧
       (sendBatchFinish s2 batch SendOutcome.failure).tweetQueue =
         (match (SendOutcome.failure : SendOutcome) with
          | SendOutcome.failure => batch ++ s2.tweetQueue
          | SendOutcome.success _ _ => s2.tweetQueue)) :=
  inflight_batch_isolation smallState [[6]] SendOutcome.failure (by decide) rfl

/-- RESET_STATS zeroes the three statistics and leaves the queue and the
enabled flag untouched. -/
theorem resetStats_frame {α : Type} (s : CollectorState α) :
    (resetStats s).stats.tweetsCollected = 0 ∧
    (resetStats s).stats.tweetsSent = 0 ∧
    (resetStats s).stats.lastSentAt = none ∧
    (resetStats s).tweetQueue = s.tweetQueue ∧
    (resetStats s).isEnabled = s.isEnabled :=
  ⟨rfl, rfl, rfl, rfl, rfl⟩

end OpenUniverse
